import Mathlib

/-!
Shallow embedding of the seismograph suite core (`seismograph/suite.py`), the
runtime-compatibility helpers (`seismograph/utils/pyv.py`) and the mock-server
command-line launcher (`seismograph/ext/mock_server/__main__.py`).

Python exceptions are modelled as values of an explicit `Exc` type carrying a
kind and a message; fallible operations return `Except Exc` or a state paired
with an `Option Exc` (the escaped exception).  Collaborator modules that are
referenced by the sources but not provided (`runnable`, `exceptions`,
`extensions`, `loader`, `result`, the mock-server package init) are modelled
from the specification; each such definition says so in its doc comment.
-/

/-- Kinds of exceptions observable in the embedded code.  The provided
sources raise the host language's generic runtime error for double
build/mount with distinguishing messages, and its generic value error for a
bad server type; the specification's error taxonomy names those failures
AlreadyBuilt, AlreadyMounted and InvalidArgument respectively (the
`exceptions` module itself is not among the provided sources), so those
spec-level kinds are used here. -/
inductive ExcKind where
  | stopSignal
  | keyboardInterrupt
  | runtimeError
  | alreadyBuilt
  | alreadyMounted
  | notBuilt
  | notMounted
  | invalidArgument
  | extensionNotRequired
  | notFound
  | pyVersionError
  | keyError
  | valueError
  | unicodeDecodeError
  | attributeError
  deriving DecidableEq, Repr

/-- An exception value: a kind plus a message/payload. -/
structure Exc where
  kind : ExcKind
  msg : String
  deriving DecidableEq, Repr

/-- Modelled from the spec: the fixed set of always-propagate error kinds
("a fixed set of control-flow error kinds (e.g., a request to stop the whole
run) that must never be downgraded to a reported test error"); the
`exceptions` module defining ALLOW_RAISED_EXCEPTIONS is not among the
provided sources. -/
def ALLOW_RAISED_EXCEPTIONS (k : ExcKind) : Bool :=
  k == ExcKind.stopSignal || k == ExcKind.keyboardInterrupt

/-- Embeds `pyv.check_gevent_supported`: raises PyVersionError when running
on the python-3 runtime generation. -/
def check_gevent_supported (isPython3 : Bool) : Except Exc Unit :=
  if isPython3 then
    Except.error ⟨ExcKind.pyVersionError, "gevent lib not supported with python 3"⟩
  else
    Except.ok ()

/-- A value given to `pyv.unicode_string`, abstracted by its observable
behaviours: the result of coercing it to text (`unicode(value)`) and the
result of byte-decoding it (`value.decode` with the utf-8 codec, which
fails with an attribute error when the value has no decode operation). -/
structure PyValue where
  toText : Except Exc String
  decodeUtf8 : Except Exc String
  deriving Repr

/-- Embeds `pyv.unicode_string`: try the text coercion; on a unicode decode
error retry via the byte-to-text decode (the coercion of the decoded text is
the identity and cannot fail again); the inner handler catches only an
attribute error, re-raising the original decode error in that case, so any
other failure of the retry propagates itself. -/
def unicode_string (v : PyValue) : Except Exc String :=
  match v.toText with
  | Except.ok s => Except.ok s
  | Except.error e =>
    if e.kind == ExcKind.unicodeDecodeError then
      match v.decodeUtf8 with
      | Except.ok s => Except.ok s
      | Except.error e2 =>
        if e2.kind == ExcKind.attributeError then Except.error e
        else Except.error e2
    else
      Except.error e

/-- Python truthiness of an optional string: absent and empty are falsy. -/
def truthy : Option String → Bool
  | none => false
  | some s => s != ""

/-- Embeds `suite.BuildRule`: a suite name plus optional case and test
names. -/
structure BuildRule where
  suite_name : String
  case_name : Option String
  test_name : Option String
  deriving DecidableEq, Repr

/-- Embeds `BuildRule.__str__`: with truthy suite, case and test names the
format string interpolates the case name twice and never the test name. -/
def BuildRule.toStr (r : BuildRule) : String :=
  if r.suite_name != "" && truthy r.case_name && truthy r.test_name then
    r.suite_name ++ ":" ++ r.case_name.getD "" ++ "." ++ r.case_name.getD ""
  else if r.suite_name != "" && truthy r.case_name then
    r.suite_name ++ ":" ++ r.case_name.getD ""
  else
    r.suite_name

/-- Embeds `config` flags consulted by `Suite._make_group`. -/
structure Config where
  GEVENT : Bool
  THREADING : Bool
  MULTIPROCESSING : Bool
  deriving DecidableEq, Repr

/-- Embeds the Program contract used by `Suite.mount_to`: an ordered suite
list plus a configuration object. -/
structure Program where
  suites : List String
  config : Config
  deriving DecidableEq, Repr

/-- Embeds the run-wide Result contract consulted by `Suite.run`
(`result.current_state.should_stop`). -/
structure Result where
  should_stop : Bool
  deriving DecidableEq, Repr

/-- Embeds the state of a `Suite` together with its `SuiteContext`
(required extension names, resolved extensions, build rules).  `mount_data`
is the optional configuration snapshot (`MountData`); `case_group_class`
records whether a class-level case-group override is set.  Case classes and
case instances are identified by name; extension instances by string. -/
structure Suite where
  name : String
  is_run : Bool
  is_build : Bool
  mount_data : Option Config
  case_classes : List String
  case_instances : List String
  require : List String
  extensions : List (String × String)
  build_rules : List BuildRule
  case_group_class : Bool
  deriving DecidableEq, Repr

/-- Embeds `BuildRule.is_of`: membership of a rule in a suite is name
equality. -/
def BuildRule.is_of (r : BuildRule) (s : Suite) : Bool :=
  r.suite_name == s.name

/-- Embeds `Suite.assign_build_rule`: the assertion that the rule is of this
suite (named InvalidArgument by the spec's error taxonomy), then the rule is
appended to the context's build-rules list only when it carries a truthy
case name. -/
def Suite.assign_build_rule (s : Suite) (rule : BuildRule) : Suite × Option Exc :=
  if !(rule.is_of s) then
    (s, some ⟨ExcKind.invalidArgument, "Build rule is not of this suite " ++ rule.toStr⟩)
  else if truthy rule.case_name then
    ({ s with build_rules := s.build_rules ++ [rule] }, none)
  else
    (s, none)

/-- Embeds `Suite.ext`.  The build guard is modelled from the spec: the
`runnable.build_method` decorator (module not among the provided sources)
fails with NotBuilt before the suite is built.  The body is from the source:
a name outside the context's require list fails with ExtensionNotRequired —
the process-wide registry is never consulted (no registry argument exists) —
and otherwise the context's extensions mapping is queried (`dict.get`,
hence an optional result). -/
def Suite.ext (s : Suite) (name : String) : Except Exc (Option String) :=
  if !s.is_build then
    Except.error ⟨ExcKind.notBuilt, s.name⟩
  else if !s.require.contains name then
    Except.error ⟨ExcKind.extensionNotRequired, name⟩
  else
    Except.ok (s.extensions.lookup name)

/-- The case-execution group selected by `Suite._make_group`. -/
inductive GroupKind where
  | override
  | gevent
  | threading
  | default
  deriving DecidableEq, Repr

/-- Embeds `Suite._make_group`.  Every branch reads `self.config`, which is
mount-guarded (modelled from the spec: `runnable.mount_method` fails with
NotMounted), so the mount check comes first.  Then: class-level override
wins; else the gevent group gated by `check_gevent_supported`; else the
threading group when the thread-pool or fork-pool flag is set; else the
sequential default group. -/
def Suite._make_group (s : Suite) (isPython3 : Bool) : Except Exc GroupKind :=
  match s.mount_data with
  | none => Except.error ⟨ExcKind.notMounted, s.name⟩
  | some cfg =>
    if s.case_group_class then Except.ok GroupKind.override
    else if cfg.GEVENT then
      match check_gevent_supported isPython3 with
      | Except.error e => Except.error e
      | Except.ok _ => Except.ok GroupKind.gevent
    else if cfg.THREADING || cfg.MULTIPROCESSING then Except.ok GroupKind.threading
    else Except.ok GroupKind.default

/-- Embeds `Suite.mount_to`: a second mount fails (AlreadyMounted in the
spec's taxonomy); otherwise the suite is appended to the program's suite
list, the configuration snapshot is taken, and the on-mount layer broadcast
fires (its possible failure is the `onMountExc` parameter, raised after the
state changes). -/
def Suite.mount_to (s : Suite) (p : Program) (onMountExc : Option Exc) :
    Suite × Program × Option Exc :=
  if s.mount_data.isSome then
    (s, p, some ⟨ExcKind.alreadyMounted, "Suite " ++ s.name ++ " already mount"⟩)
  else
    let p2 := { p with suites := p.suites ++ [s.name] }
    let s2 := { s with mount_data := some p.config }
    (s2, p2, onMountExc)

/-- Embeds `SuiteContext.install_extensions`.  The registry resolution is
modelled from the spec: the process-wide `extensions.get` (module not among
the provided sources) returns the instance for a registered name and fails
with NotFound otherwise.  Each required name not already present is resolved
and cached; partial progress persists when a resolution fails. -/
def install_extensions (registry : List (String × String)) :
    List String → List (String × String) → List (String × String) × Option Exc
  | [], exts => (exts, none)
  | n :: rest, exts =>
    if (exts.lookup n).isSome then
      install_extensions registry rest exts
    else
      match registry.lookup n with
      | some inst => install_extensions registry rest (exts ++ [(n, inst)])
      | none => (exts, some ⟨ExcKind.notFound, n⟩)

/-- Modelled from the spec: `loader.load_tests_from_case` (module not among
the provided sources) produces the test units of a case class, optionally
restricted to one test name; it may fail (e.g. user constructors raising).
The behaviour is abstracted as a function parameter of this shape. -/
def UnitsOf : Type := String → Option String → Except Exc (List String)

/-- Embeds the all-classes path of `Suite.__build__`: every registered case
class contributes its units in order, stopping at the first failure with
partial progress kept. -/
def buildAllCases (unitsOf : UnitsOf) : Suite → List String → Suite × Option Exc
  | s, [] => (s, none)
  | s, c :: rest =>
    match unitsOf c none with
    | Except.ok us =>
      buildAllCases unitsOf { s with case_instances := s.case_instances ++ us } rest
    | Except.error e => (s, some e)

/-- Embeds `Suite.__build__`: with a truthy case name, the case class is
looked up on the suite (`loader.load_case_from_suite`, modelled from the
spec as failing with NotFound when no such class is registered) and its
units for the optional test name are appended; otherwise every registered
case class is built. -/
def Suite.buildStep (s : Suite) (unitsOf : UnitsOf)
    (case_name test_name : Option String) : Suite × Option Exc :=
  if truthy case_name then
    let cn := case_name.getD ""
    if s.case_classes.contains cn then
      match unitsOf cn test_name with
      | Except.ok us => ({ s with case_instances := s.case_instances ++ us }, none)
      | Except.error e => (s, some e)
    else (s, some ⟨ExcKind.notFound, cn⟩)
  else
    buildAllCases unitsOf s s.case_classes

/-- Embeds the build-rules path of `Suite.build`: one build step per
accumulated rule, stopping at the first failure. -/
def buildByRules (unitsOf : UnitsOf) : Suite → List BuildRule → Suite × Option Exc
  | s, [] => (s, none)
  | s, r :: rest =>
    match s.buildStep unitsOf r.case_name r.test_name with
    | (s2, some e) => (s2, some e)
    | (s2, none) => buildByRules unitsOf s2 rest

/-- Embeds the case-selection phase of `Suite.build`: when build rules have
accumulated and the caller passed no (truthy) case name, one build step runs
per rule; otherwise the explicit case/test arguments drive one build
step. -/
def Suite.buildCore (s1 : Suite) (unitsOf : UnitsOf)
    (case_name test_name : Option String) : Suite × Option Exc :=
  if !s1.build_rules.isEmpty && !(truthy case_name) then
    buildByRules unitsOf s1 s1.build_rules
  else
    s1.buildStep unitsOf case_name test_name

/-- Embeds the final phase of `Suite.build`: the optional shuffle function
reorders the instances in place (its failure escaping with the flag still
false), and only then is the built flag set. -/
def finishBuild (shuffle : Option (List String → Except Exc (List String)))
    (s2 : Suite) : Suite × Option Exc :=
  match shuffle with
  | none => ({ s2 with is_build := true }, none)
  | some f =>
    match f s2.case_instances with
    | Except.error e => (s2, some e)
    | Except.ok insts => ({ s2 with case_instances := insts, is_build := true }, none)

/-- Embeds `Suite.build`.  The mount guard is modelled from the spec
(`runnable.mount_method`).  A second build fails (AlreadyBuilt in the spec's
taxonomy; the source raises the generic runtime error).  Then required
extensions are installed, the build rules (when present and no explicit case
name was passed) or the explicit arguments drive `__build__`, the optional
shuffle function reorders the instances, and only after all of that does the
built flag become true — any failure on the way leaves it false, with
partial state changes kept. -/
def Suite.build (s : Suite) (registry : List (String × String)) (unitsOf : UnitsOf)
    (shuffle : Option (List String → Except Exc (List String)))
    (case_name test_name : Option String) : Suite × Option Exc :=
  if s.mount_data.isNone then
    (s, some ⟨ExcKind.notMounted, s.name⟩)
  else if s.is_build then
    (s, some ⟨ExcKind.alreadyBuilt, "Suite is already built"⟩)
  else
    match install_extensions registry s.require s.extensions with
    | (exts, some e) => ({ s with extensions := exts }, some e)
    | (exts, none) =>
      match Suite.buildCore { s with extensions := exts } unitsOf case_name test_name with
      | (s2, some e) => (s2, some e)
      | (s2, none) => finishBuild shuffle s2

/-- Observable events of one `Suite.run` invocation, in order: acquiring and
releasing the per-suite result proxy, the on-run broadcast, entering the
scoped context (setup callbacks plus on-setup broadcast), invoking the case
group, leaving the scoped context (teardown callbacks plus on-teardown
broadcast), one `add_error` record (suite name, formatted traceback, elapsed
duration, error), and the on-error broadcast. -/
inductive Event where
  | proxyEnter
  | proxyExit
  | onRun
  | startContext
  | groupCall
  | stopContext
  | addError (suite : String) (tb : String) (duration : Nat) (err : Exc)
  | onError (err : Exc)
  deriving DecidableEq, Repr

/-- The environment of one `Suite.run` invocation: the runtime generation,
the exception (if any) each collaborating step raises — the on-run
broadcast, the context entry (setup), the group call, the context exit
(teardown), the on-error broadcast — plus the formatted traceback and the
elapsed duration observed at the error handler. -/
structure RunEnv where
  isPython3 : Bool
  onRunExc : Option Exc
  setupExc : Option Exc
  groupExc : Option Exc
  teardownExc : Option Exc
  onErrorExc : Option Exc
  tb : String
  elapsed : Nat
  deriving DecidableEq, Repr

/-- Embeds the body of the try statement in `Suite.run` under the scoped
context-manager semantics (the wrapper itself is modelled from the spec:
entering runs setup, exiting runs teardown on every exit path; an exception
raised by the exit replaces the body's exception).  Returns the events that
occurred and the exception escaping the try body. -/
def tryBody (env : RunEnv) : List Event × Option Exc :=
  match env.onRunExc with
  | some e => ([Event.onRun], some e)
  | none =>
    match env.setupExc with
    | some e => ([Event.onRun, Event.startContext], some e)
    | none =>
      match env.teardownExc with
      | some e2 =>
        ([Event.onRun, Event.startContext, Event.groupCall, Event.stopContext], some e2)
      | none =>
        ([Event.onRun, Event.startContext, Event.groupCall, Event.stopContext], env.groupExc)

/-- Embeds the proxy/try section of `Suite.run` for a suite that passed the
early return: the group is selected (a failure there escapes before the
proxy is acquired); inside the proxy scope the try body runs; an escaping
exception in the always-propagate set is re-raised unchanged; any other is
recorded once via `add_error` and the on-error broadcast fires (its own
failure propagating).  The result-proxy acquisition and `add_error` are
modelled from the spec's Result contract (the `result` module is not among
the provided sources) as non-raising and non-suppressing. -/
def runBody (s : Suite) (env : RunEnv) : List Event × Option Exc :=
  match s._make_group env.isPython3 with
  | Except.error e => ([], some e)
  | Except.ok _ =>
    match tryBody env with
    | (bodyEvs, none) => (Event.proxyEnter :: bodyEvs ++ [Event.proxyExit], none)
    | (bodyEvs, some e) =>
      if ALLOW_RAISED_EXCEPTIONS e.kind then
        (Event.proxyEnter :: bodyEvs ++ [Event.proxyExit], some e)
      else
        let evs := bodyEvs ++ [Event.addError s.name env.tb env.elapsed e, Event.onError e]
        match env.onErrorExc with
        | some e3 => (Event.proxyEnter :: evs ++ [Event.proxyExit], some e3)
        | none => (Event.proxyEnter :: evs ++ [Event.proxyExit], none)

/-- Embeds `Suite.run`.  The build guard is modelled from the spec
(`runnable.build_method`, NotBuilt).  The run flag is set first,
unconditionally; when the run-wide stop flag is set or no case instances
were built, the call returns at once with no further effect; otherwise the
proxy/try section executes. -/
def Suite.run (s : Suite) (r : Result) (env : RunEnv) :
    Suite × List Event × Option Exc :=
  if !s.is_build then
    (s, [], some ⟨ExcKind.notBuilt, s.name⟩)
  else
    let s2 := { s with is_run := true }
    if r.should_stop || s2.case_instances.isEmpty then
      (s2, [], none)
    else
      let be := runBody s2 env
      (s2, be.1, be.2)

/-- Recognizes `add_error` events. -/
def isAddError : Event → Bool
  | Event.addError _ _ _ _ => true
  | _ => false

/-- Number of `add_error` records in a trace. -/
def countAddError (evs : List Event) : Nat :=
  evs.countP isAddError

/-- Embeds the option set produced by the mock-server CLI's
`get_parser`. -/
structure Options where
  PORT : Int
  HOST : String
  MOCKS_DIR : Option String
  SERVER_TYPE : String
  NO_DEBUG : Bool
  MULTIPROCESSING : Bool
  THREADING : Bool
  GEVENT : Bool
  deriving DecidableEq, Repr

/-- Embeds the defaults declared in `get_parser`: port 5000, host
127.0.0.1, no mocks directory, server type json_api, NO_DEBUG true (the
flag stores false, so debug is on by default), all three concurrency flags
off. -/
def defaultOptions : Options :=
  { PORT := 5000
    HOST := "127.0.0.1"
    MOCKS_DIR := none
    SERVER_TYPE := "json_api"
    NO_DEBUG := true
    MULTIPROCESSING := false
    THREADING := false
    GEVENT := false }

/-- Modelled from the spec: the server-type registry of the mock-server
package defines exactly the keys "simple" and "json_api" (the package init
defining SERVER_TYPES is not among the provided sources). -/
def SERVER_TYPES : List String := ["simple", "json_api"]

/-- Observable events of one mock-server CLI invocation: the gevent
monkey-patch, the construction of a server (with every argument the source
passes), and the serve-forever call. -/
inductive CliEvent where
  | geventPatch
  | construct (stype : String) (host : String) (port : Int) (debug : Bool)
      (gevent : Bool) (threading : Bool) (multiprocessing : Bool)
      (mocksDir : Option String)
  | serve (stype : String)
  deriving DecidableEq, Repr

/-- The behaviour of the selected server backend: the exception (if any)
raised by its constructor and by its serve-forever call. -/
structure ServerEnv where
  constructExc : Option Exc
  serveExc : Option Exc
  deriving DecidableEq, Repr

namespace mock_server

/-- Embeds the try statement of the CLI `main`: the registry lookup (a key
error when the type is unregistered), the server construction, and the
serve-forever call all sit inside the same handler. -/
def mainTry (opts : Options) (env : ServerEnv) : List CliEvent × Option Exc :=
  if !SERVER_TYPES.contains opts.SERVER_TYPE then
    ([], some ⟨ExcKind.keyError, opts.SERVER_TYPE⟩)
  else
    match env.constructExc with
    | some e => ([], some e)
    | none =>
      let evs := [CliEvent.construct opts.SERVER_TYPE opts.HOST opts.PORT opts.NO_DEBUG
                    opts.GEVENT opts.THREADING opts.MULTIPROCESSING opts.MOCKS_DIR,
                  CliEvent.serve opts.SERVER_TYPE]
      match env.serveExc with
      | some e => (evs, some e)
      | none => (evs, none)

/-- Embeds the key-error handler of the CLI `main`: a key error becomes the
"Incorrect server type" failure (the source raises the language's value
error, named InvalidArgument by the spec's taxonomy); everything else
propagates unchanged. -/
def convertKeyError : Option Exc → Option Exc
  | some e =>
    if e.kind == ExcKind.keyError then
      some ⟨ExcKind.invalidArgument, "Incorrect server type"⟩
    else some e
  | none => none

/-- Embeds the CLI `main`: when the gevent flag is set the compatibility
gate runs (its failure escaping untouched) and the monkey-patch is applied
before anything else; then the guarded lookup/construct/serve section runs
with its key-error conversion. -/
def main (opts : Options) (isPython3 : Bool) (env : ServerEnv) :
    List CliEvent × Option Exc :=
  if opts.GEVENT then
    match check_gevent_supported isPython3 with
    | Except.error e => ([], some e)
    | Except.ok _ =>
      let r := mainTry opts env
      (CliEvent.geventPatch :: r.1, convertKeyError r.2)
  else
    let r := mainTry opts env
    (r.1, convertKeyError r.2)

end mock_server

/-- Recognizes the CLI events that construct a server or bind/serve a
socket. -/
def isConstructOrServe : CliEvent → Bool
  | CliEvent.construct _ _ _ _ _ _ _ _ => true
  | CliEvent.serve _ => true
  | _ => false

/-- A configuration with no concurrency flag set. -/
def sampleConfig : Config := ⟨false, false, false⟩

/-- A mounted, built suite with one registered case class, one built unit
and one required, resolved extension. -/
def sampleSuite : Suite :=
  { name := "A"
    is_run := false
    is_build := true
    mount_data := some sampleConfig
    case_classes := ["CaseX"]
    case_instances := ["CaseX.test"]
    require := ["ext1"]
    extensions := [("ext1", "inst1")]
    build_rules := []
    case_group_class := false }

/-- A freshly constructed suite: neither mounted nor built. -/
def freshSuite : Suite :=
  { name := "B"
    is_run := false
    is_build := false
    mount_data := none
    case_classes := ["CaseY"]
    case_instances := []
    require := []
    extensions := []
    build_rules := []
    case_group_class := false }

/-- A program holding no suites yet. -/
def sampleProgram : Program := ⟨[], sampleConfig⟩

/-- A run environment in which every collaborating step succeeds. -/
def quietEnv : RunEnv :=
  { isPython3 := false
    onRunExc := none
    setupExc := none
    groupExc := none
    teardownExc := none
    onErrorExc := none
    tb := "Traceback (most recent call last)"
    elapsed := 3 }

/-- A value whose text coercion fails with a decode error and whose
byte-decode retry fails with an attribute error. -/
def pvNoDecode : PyValue :=
  { toText := Except.error ⟨ExcKind.unicodeDecodeError, "original failure"⟩
    decodeUtf8 := Except.error ⟨ExcKind.attributeError, "no decode attribute"⟩ }

/-- A value whose text coercion fails with a decode error and whose
byte-decode retry fails with a second, different decode error. -/
def pvRetryFails : PyValue :=
  { toText := Except.error ⟨ExcKind.unicodeDecodeError, "original failure"⟩
    decodeUtf8 := Except.error ⟨ExcKind.unicodeDecodeError, "retry failure"⟩ }

/-- A run environment in which the group call raises a plain runtime error
and every other step succeeds. -/
def groupFailEnv : RunEnv :=
  { quietEnv with groupExc := some ⟨ExcKind.runtimeError, "case blew up"⟩ }

/-- A run environment in which the group call raises an always-propagate
stop signal while both the teardown exit and the on-error broadcast raise
plain runtime errors of their own. -/
def clashEnv : RunEnv :=
  { quietEnv with
      groupExc := some ⟨ExcKind.stopSignal, "stop the run"⟩
      teardownExc := some ⟨ExcKind.runtimeError, "teardown failed"⟩
      onErrorExc := some ⟨ExcKind.runtimeError, "error layer failed"⟩ }

/-- C9: with a truthy suite name, case name and test name, the build rule
renders as suite:case.case — the case name appears twice and the test name
never influences the rendering. -/
theorem C9_build_rule_str (sn cn tn : String)
    (hs : sn ≠ "") (hc : cn ≠ "") (ht : tn ≠ "") :
    (BuildRule.mk sn (some cn) (some tn)).toStr = sn ++ ":" ++ cn ++ "." ++ cn ∧
    (∀ tn2 : String, tn2 ≠ "" →
      (BuildRule.mk sn (some cn) (some tn2)).toStr
        = (BuildRule.mk sn (some cn) (some tn)).toStr) := by
  have hs' : (sn != "") = true := by simp [bne_iff_ne, hs]
  have hc' : (cn != "") = true := by simp [bne_iff_ne, hc]
  have ht' : (tn != "") = true := by simp [bne_iff_ne, ht]
  constructor
  · simp [BuildRule.toStr, truthy, hs', hc', ht']
  · intro tn2 h2
    have h2' : (tn2 != "") = true := by simp [bne_iff_ne, h2]
    simp [BuildRule.toStr, truthy, hs', hc', ht', h2']

/-- Witness for C9 at a concrete rule. -/
theorem C9_build_rule_str_witness :
    (BuildRule.mk "A" (some "CaseX") (some "test_x")).toStr
      = "A" ++ ":" ++ "CaseX" ++ "." ++ "CaseX" :=
  (C9_build_rule_str "A" "CaseX" "test_x" (by decide) (by decide) (by decide)).1

/-- C6: assign_build_rule checks membership by name equality (is_of); a
rule of another suite fails with InvalidArgument; a matching rule with a
truthy case name is appended to the build-rules list; a matching rule
without a case name is accepted but not retained. -/
theorem C6_assign_build_rule (s : Suite) (rule : BuildRule) :
    (rule.is_of s = (rule.suite_name == s.name)) ∧
    (rule.is_of s = false →
      s.assign_build_rule rule
        = (s, some ⟨ExcKind.invalidArgument,
            "Build rule is not of this suite " ++ rule.toStr⟩)) ∧
    (rule.is_of s = true → truthy rule.case_name = true →
      s.assign_build_rule rule
        = ({ s with build_rules := s.build_rules ++ [rule] }, none)) ∧
    (rule.is_of s = true → truthy rule.case_name = false →
      s.assign_build_rule rule = (s, none)) := by
  refine ⟨rfl, ?_, ?_, ?_⟩
  · intro h
    simp [Suite.assign_build_rule, h]
  · intro h hc
    simp [Suite.assign_build_rule, h, hc]
  · intro h hc
    simp [Suite.assign_build_rule, h, hc]

/-- Witness for C6 at concrete rules: a rule naming suite B is rejected by
suite A; a matching rule with a case name is appended. -/
theorem C6_assign_build_rule_witness :
    sampleSuite.assign_build_rule ⟨"B", some "CaseX", none⟩
      = (sampleSuite, some ⟨ExcKind.invalidArgument,
          "Build rule is not of this suite " ++ (BuildRule.mk "B" (some "CaseX") none).toStr⟩) ∧
    sampleSuite.assign_build_rule ⟨"A", some "CaseX", none⟩
      = ({ sampleSuite with
            build_rules := sampleSuite.build_rules ++ [⟨"A", some "CaseX", none⟩] }, none) :=
  ⟨(C6_assign_build_rule sampleSuite ⟨"B", some "CaseX", none⟩).2.1 (by decide),
   (C6_assign_build_rule sampleSuite ⟨"A", some "CaseX", none⟩).2.2.1 (by decide) (by decide)⟩

/-- C5: ext is build-guarded (NotBuilt before build); on a built suite a
name outside the declared require list fails with ExtensionNotRequired —
the definition takes no registry, so process-wide registrations cannot
change this — and a declared name yields the context's cached extensions
entry. -/
theorem C5_ext (s : Suite) (name : String) :
    (s.is_build = false → s.ext name = Except.error ⟨ExcKind.notBuilt, s.name⟩) ∧
    (s.is_build = true → s.require.contains name = false →
      s.ext name = Except.error ⟨ExcKind.extensionNotRequired, name⟩) ∧
    (s.is_build = true → s.require.contains name = true →
      s.ext name = Except.ok (s.extensions.lookup name)) := by
  refine ⟨?_, ?_, ?_⟩
  · intro h
    simp [Suite.ext, h]
  · intro h hr
    simp [Suite.ext, h, hr]
    simpa using hr
  · intro h hr
    simp [Suite.ext, h, hr]
    simpa using hr

/-- Witness for C5 at concrete suites and names. -/
theorem C5_ext_witness :
    sampleSuite.ext "ext1" = Except.ok (sampleSuite.extensions.lookup "ext1") ∧
    sampleSuite.ext "ext2" = Except.error ⟨ExcKind.extensionNotRequired, "ext2"⟩ ∧
    ({ sampleSuite with is_build := false }).ext "ext1"
      = Except.error ⟨ExcKind.notBuilt, ({ sampleSuite with is_build := false }).name⟩ :=
  ⟨(C5_ext sampleSuite "ext1").2.2 (by decide) (by decide),
   (C5_ext sampleSuite "ext2").2.1 (by decide) (by decide),
   (C5_ext { sampleSuite with is_build := false } "ext1").1 (by decide)⟩

/-- C4: group selection precedence on a mounted suite — class-level
override first; else the gevent group gated by the runtime check (failing
with the version error on the python-3 generation); else the threading
group when the thread-pool or fork-pool flag is set (both map to the same
group); else the sequential default. -/
theorem C4_make_group (s : Suite) (cfg : Config) (py3 : Bool)
    (hm : s.mount_data = some cfg) :
    (s.case_group_class = true → s._make_group py3 = Except.ok GroupKind.override) ∧
    (s.case_group_class = false → cfg.GEVENT = true → py3 = true →
      s._make_group py3
        = Except.error ⟨ExcKind.pyVersionError, "gevent lib not supported with python 3"⟩) ∧
    (s.case_group_class = false → cfg.GEVENT = true → py3 = false →
      s._make_group py3 = Except.ok GroupKind.gevent) ∧
    (s.case_group_class = false → cfg.GEVENT = false →
      (cfg.THREADING || cfg.MULTIPROCESSING) = true →
      s._make_group py3 = Except.ok GroupKind.threading) ∧
    (s.case_group_class = false → cfg.GEVENT = false → cfg.THREADING = false →
      cfg.MULTIPROCESSING = false →
      s._make_group py3 = Except.ok GroupKind.default) := by
  refine ⟨?_, ?_, ?_, ?_, ?_⟩ <;> intros <;>
    simp [Suite._make_group, check_gevent_supported, hm, *]

/-- Witness for C4: the sample suite (no override, no flags) gets the
default group; with the gevent flag on python 3 the version error is
raised; the thread-pool and fork-pool flags both select the threading
group. -/
theorem C4_make_group_witness :
    Suite._make_group sampleSuite false = Except.ok GroupKind.default ∧
    Suite._make_group { sampleSuite with mount_data := some ⟨true, false, false⟩ } true
      = Except.error ⟨ExcKind.pyVersionError, "gevent lib not supported with python 3"⟩ ∧
    Suite._make_group { sampleSuite with mount_data := some ⟨false, true, false⟩ } false
      = Except.ok GroupKind.threading ∧
    Suite._make_group { sampleSuite with mount_data := some ⟨false, false, true⟩ } false
      = Except.ok GroupKind.threading :=
  ⟨(C4_make_group sampleSuite sampleConfig false rfl).2.2.2.2 rfl rfl rfl rfl,
   (C4_make_group { sampleSuite with mount_data := some ⟨true, false, false⟩ }
      ⟨true, false, false⟩ true rfl).2.1 rfl rfl rfl,
   (C4_make_group { sampleSuite with mount_data := some ⟨false, true, false⟩ }
      ⟨false, true, false⟩ false rfl).2.2.2.1 rfl rfl rfl,
   (C4_make_group { sampleSuite with mount_data := some ⟨false, false, true⟩ }
      ⟨false, false, true⟩ false rfl).2.2.2.1 rfl rfl rfl⟩

/-- C8 counterexample: when the byte-decode retry itself fails with a
second decoding failure, unicode_string re-raises the retry's failure, not
the original one — the claim's "the original decoding failure is re-raised
whenever the retry fails" is false on this input. -/
theorem C8_unicode_string_counterexample :
    unicode_string pvRetryFails
      = Except.error ⟨ExcKind.unicodeDecodeError, "retry failure"⟩ ∧
    pvRetryFails.toText
      = Except.error ⟨ExcKind.unicodeDecodeError, "original failure"⟩ ∧
    (Exc.mk ExcKind.unicodeDecodeError "retry failure")
      ≠ ⟨ExcKind.unicodeDecodeError, "original failure"⟩ :=
  ⟨rfl, rfl, by decide⟩

/-- C8 (amended): the text coercion's successful result is returned; a
non-decoding failure of the coercion propagates; on a decoding failure the
byte-decode retry's result is returned when it succeeds; when the retry
fails with an attribute failure (the value has no byte-decode operation)
the original decoding failure is re-raised; any other failure of the retry
propagates itself. -/
theorem C8_unicode_string (v : PyValue) :
    (∀ s, v.toText = Except.ok s → unicode_string v = Except.ok s) ∧
    (∀ e, v.toText = Except.error e → e.kind ≠ ExcKind.unicodeDecodeError →
      unicode_string v = Except.error e) ∧
    (∀ e s, v.toText = Except.error e → e.kind = ExcKind.unicodeDecodeError →
      v.decodeUtf8 = Except.ok s → unicode_string v = Except.ok s) ∧
    (∀ e e2, v.toText = Except.error e → e.kind = ExcKind.unicodeDecodeError →
      v.decodeUtf8 = Except.error e2 → e2.kind = ExcKind.attributeError →
      unicode_string v = Except.error e) ∧
    (∀ e e2, v.toText = Except.error e → e.kind = ExcKind.unicodeDecodeError →
      v.decodeUtf8 = Except.error e2 → e2.kind ≠ ExcKind.attributeError →
      unicode_string v = Except.error e2) := by
  refine ⟨?_, ?_, ?_, ?_, ?_⟩
  · intro s h
    simp [unicode_string, h]
  · intro e h hk
    simp [unicode_string, h, hk]
  · intro e s h hk hd
    simp [unicode_string, h, hk, hd]
  · intro e e2 h hk hd hk2
    simp [unicode_string, h, hk, hd, hk2]
  · intro e e2 h hk hd hk2
    simp [unicode_string, h, hk, hd, hk2]

/-- Witness for C8 at a concrete value without a byte-decode operation:
the original decoding failure is re-raised. -/
theorem C8_unicode_string_witness :
    unicode_string pvNoDecode
      = Except.error ⟨ExcKind.unicodeDecodeError, "original failure"⟩ :=
  (C8_unicode_string pvNoDecode).2.2.2.1
    ⟨ExcKind.unicodeDecodeError, "original failure"⟩
    ⟨ExcKind.attributeError, "no decode attribute"⟩ rfl rfl rfl rfl

/-- C7: with an unregistered server type (and the gevent gate not tripped),
the CLI fails with the InvalidArgument "Incorrect server type" failure and
no server is constructed and no serving happens; the parser defaults are
host 127.0.0.1, port 5000, type json_api, debug on, all three concurrency
flags off. -/
theorem C7_cli_bad_type (opts : Options) (py3 : Bool) (env : ServerEnv)
    (ht : SERVER_TYPES.contains opts.SERVER_TYPE = false)
    (hg : opts.GEVENT = false ∨ py3 = false) :
    (mock_server.main opts py3 env).2
      = some ⟨ExcKind.invalidArgument, "Incorrect server type"⟩ ∧
    (mock_server.main opts py3 env).1.any isConstructOrServe = false ∧
    defaultOptions.HOST = "127.0.0.1" ∧ defaultOptions.PORT = 5000 ∧
    defaultOptions.SERVER_TYPE = "json_api" ∧ defaultOptions.NO_DEBUG = true ∧
    defaultOptions.MULTIPROCESSING = false ∧ defaultOptions.THREADING = false ∧
    defaultOptions.GEVENT = false := by
  have ht2 : opts.SERVER_TYPE ∉ SERVER_TYPES := by simpa using ht
  have hmt : mock_server.mainTry opts env
      = ([], some ⟨ExcKind.keyError, opts.SERVER_TYPE⟩) := by
    simp [mock_server.mainTry, ht2]
  rcases hg with hg | hg
  · refine ⟨?_, ?_, rfl, rfl, rfl, rfl, rfl, rfl, rfl⟩ <;>
      simp [mock_server.main, mock_server.convertKeyError, hg, hmt]
  · cases hgv : opts.GEVENT
    · refine ⟨?_, ?_, rfl, rfl, rfl, rfl, rfl, rfl, rfl⟩ <;>
        simp [mock_server.main, mock_server.convertKeyError, hgv, hmt]
    · refine ⟨?_, ?_, rfl, rfl, rfl, rfl, rfl, rfl, rfl⟩ <;>
        simp [mock_server.main, mock_server.convertKeyError, check_gevent_supported,
          hgv, hg, hmt, isConstructOrServe]

/-- Witness for C7: launching with only the type flag set to an unknown key
reports the incorrect-server-type failure. -/
theorem C7_cli_bad_type_witness :
    (mock_server.main { defaultOptions with SERVER_TYPE := "unknownkey" } false
        ⟨none, none⟩).2
      = some ⟨ExcKind.invalidArgument, "Incorrect server type"⟩ :=
  (C7_cli_bad_type { defaultOptions with SERVER_TYPE := "unknownkey" } false
      ⟨none, none⟩ (by decide) (Or.inl rfl)).1

/-- C10: the key-error handler of the CLI encloses the registry lookup, the
server construction and the serve-forever call — a key error raised by the
constructor or during serving is also converted to the InvalidArgument
"Incorrect server type" failure, even though the type key itself is
registered. -/
theorem C10_cli_keyerror_scope (opts : Options) (py3 : Bool) (env : ServerEnv)
    (e : Exc)
    (ht : SERVER_TYPES.contains opts.SERVER_TYPE = true)
    (hg : opts.GEVENT = false ∨ py3 = false)
    (hk : e.kind = ExcKind.keyError) :
    (env.constructExc = some e →
      (mock_server.main opts py3 env).2
        = some ⟨ExcKind.invalidArgument, "Incorrect server type"⟩) ∧
    (env.constructExc = none → env.serveExc = some e →
      (mock_server.main opts py3 env).2
        = some ⟨ExcKind.invalidArgument, "Incorrect server type"⟩) := by
  constructor
  · intro hc
    have ht2 : opts.SERVER_TYPE ∈ SERVER_TYPES := by simpa using ht
    have hmt : (mock_server.mainTry opts env).2 = some e := by
      simp [mock_server.mainTry, ht2, hc]
    rcases hg with hg | hg
    · simp [mock_server.main, mock_server.convertKeyError, hg, hmt, hk]
    · cases hgv : opts.GEVENT <;>
        simp [mock_server.main, mock_server.convertKeyError, check_gevent_supported,
          hgv, hg, hmt, hk]
  · intro hc hs
    have ht2 : opts.SERVER_TYPE ∈ SERVER_TYPES := by simpa using ht
    have hmt : (mock_server.mainTry opts env).2 = some e := by
      simp [mock_server.mainTry, ht2, hc, hs]
    rcases hg with hg | hg
    · simp [mock_server.main, mock_server.convertKeyError, hg, hmt, hk]
    · cases hgv : opts.GEVENT <;>
        simp [mock_server.main, mock_server.convertKeyError, check_gevent_supported,
          hgv, hg, hmt, hk]

/-- Witness for C10: a key error raised while serving (a registered type)
is reported as the incorrect-server-type failure. -/
theorem C10_cli_keyerror_scope_witness :
    (mock_server.main defaultOptions false
        ⟨none, some ⟨ExcKind.keyError, "fixture lookup"⟩⟩).2
      = some ⟨ExcKind.invalidArgument, "Incorrect server type"⟩ :=
  (C10_cli_keyerror_scope defaultOptions false
      ⟨none, some ⟨ExcKind.keyError, "fixture lookup"⟩⟩
      ⟨ExcKind.keyError, "fixture lookup"⟩ (by decide) (Or.inl rfl) rfl).2 rfl rfl

/-- C2: on an already-built suite, run sets the is-run flag
unconditionally; and when the run-wide stop flag is set or zero case
instances were built, run returns immediately with no event at all (no
proxy acquisition, no broadcast, no group call, no result write) and no
exception. -/
theorem C2_run_early_return (s : Suite) (r : Result) (env : RunEnv)
    (hb : s.is_build = true) :
    (Suite.run s r env).1.is_run = true ∧
    ((r.should_stop = true ∨ s.case_instances = []) →
      Suite.run s r env = ({ s with is_run := true }, [], none)) := by
  constructor
  · simp only [Suite.run, hb, Bool.not_true, Bool.false_eq_true, if_false]
    split <;> rfl
  · intro h
    have hc : (r.should_stop || ({ s with is_run := true } : Suite).case_instances.isEmpty)
        = true := by
      rcases h with h | h <;> simp [h]
    simp only [Suite.run, hb, Bool.not_true, Bool.false_eq_true, if_false, hc, if_true]

/-- Witness for C2: a built suite under a stopping result returns
immediately with an empty trace, and a built suite with zero instances
does likewise. -/
theorem C2_run_early_return_witness :
    Suite.run sampleSuite ⟨true⟩ quietEnv = ({ sampleSuite with is_run := true }, [], none) ∧
    Suite.run { sampleSuite with case_instances := [] } ⟨false⟩ quietEnv
      = ({ sampleSuite with case_instances := [], is_run := true }, [], none) :=
  ⟨(C2_run_early_return sampleSuite ⟨true⟩ quietEnv rfl).2 (Or.inl rfl),
   (C2_run_early_return { sampleSuite with case_instances := [] } ⟨false⟩ quietEnv rfl).2
     (Or.inr rfl)⟩

/-- Building all registered case classes never touches the built flag. -/
lemma buildAllCases_is_build (u : UnitsOf) :
    ∀ (cs : List String) (s : Suite), ((buildAllCases u s cs).1).is_build = s.is_build := by
  intro cs
  induction cs with
  | nil => intro s; rfl
  | cons c rest ih =>
    intro s
    simp only [buildAllCases]
    cases u c none with
    | ok us => exact ih _
    | error e => rfl

/-- One build step never touches the built flag. -/
lemma buildStep_is_build (s : Suite) (u : UnitsOf) (cn tn : Option String) :
    ((s.buildStep u cn tn).1).is_build = s.is_build := by
  simp only [Suite.buildStep]
  split
  · split
    · cases u (cn.getD "") tn with
      | ok us => rfl
      | error e => rfl
    · rfl
  · exact buildAllCases_is_build u s.case_classes s

/-- Building by rules never touches the built flag. -/
lemma buildByRules_is_build (u : UnitsOf) :
    ∀ (rules : List BuildRule) (s : Suite),
      ((buildByRules u s rules).1).is_build = s.is_build := by
  intro rules
  induction rules with
  | nil => intro s; rfl
  | cons r rest ih =>
    intro s
    simp only [buildByRules]
    have hstep := buildStep_is_build s u r.case_name r.test_name
    cases hs : s.buildStep u r.case_name r.test_name with
    | mk s2 exc =>
      rw [hs] at hstep
      cases exc with
      | some e => exact hstep
      | none => rw [ih s2]; exact hstep


/-- The case-selection phase never touches the built flag. -/
lemma buildCore_is_build (s1 : Suite) (u : UnitsOf) (cn tn : Option String) :
    ((Suite.buildCore s1 u cn tn).1).is_build = s1.is_build := by
  unfold Suite.buildCore
  split
  · exact buildByRules_is_build u s1.build_rules s1
  · exact buildStep_is_build s1 u cn tn

/-- The final phase sets the built flag exactly when it reports no
exception; on a shuffle failure it leaves the incoming flag. -/
lemma finishBuild_flag (sh : Option (List String → Except Exc (List String)))
    (s2 : Suite) :
    ((finishBuild sh s2).1).is_build = (((finishBuild sh s2).2).isNone || s2.is_build) := by
  unfold finishBuild
  cases sh with
  | none => simp
  | some f =>
    cases hf : f s2.case_instances with
    | error e => simp [hf]
    | ok insts => simp [hf]

/-- On a not-yet-built suite, build leaves the built flag true exactly when
no exception escaped: any failing step leaves the suite unmarked. -/
lemma build_flag (s : Suite) (registry : List (String × String)) (unitsOf : UnitsOf)
    (shuffle : Option (List String → Except Exc (List String)))
    (cn tn : Option String) (hb : s.is_build = false) (out : Suite × Option Exc)
    (hout : Suite.build s registry unitsOf shuffle cn tn = out) :
    (out.1).is_build = (out.2).isNone := by
  rw [Suite.build] at hout
  by_cases hmd : s.mount_data.isNone = true
  · rw [if_pos hmd] at hout
    rw [← hout]; simpa using hb
  · rw [if_neg hmd] at hout
    have hb2 : ¬ s.is_build = true := by simp [hb]
    rw [if_neg hb2] at hout
    rcases hinst : install_extensions registry s.require s.extensions with ⟨exts, _ | e0⟩
    · simp only [hinst] at hout
      rcases hcore : Suite.buildCore { s with extensions := exts } unitsOf cn tn
        with ⟨s2, exc2⟩
      have hs2 : s2.is_build = false := by
        have h2 := buildCore_is_build ({ s with extensions := exts }) unitsOf cn tn
        rw [hcore] at h2
        simpa [hb] using h2
      cases exc2 with
      | some e0 =>
        simp only [hcore] at hout
        rw [← hout]; simpa using hs2
      | none =>
        simp only [hcore] at hout
        have h3 := finishBuild_flag shuffle s2
        rw [hout] at h3
        simpa [hs2] using h3
    · simp only [hinst] at hout
      rw [← hout]; simpa using hb

/-- C3: a second build fails with AlreadyBuilt and a second mount fails
with AlreadyMounted; and on a not-yet-built suite the built flag is set
only after extension installation, case-instance construction and the
optional shuffle have all completed — whenever any of those steps raises,
the suite is still not marked built, and the flag is true exactly when
build returned without an exception. -/
theorem C3_build_mount_one_shot (s : Suite) (p : Program)
    (registry : List (String × String)) (unitsOf : UnitsOf)
    (shuffle : Option (List String → Except Exc (List String)))
    (case_name test_name : Option String) (e1 e2 : Option Exc) :
    (s.is_build = true → s.mount_data.isSome = true →
      Suite.build s registry unitsOf shuffle case_name test_name
        = (s, some ⟨ExcKind.alreadyBuilt, "Suite is already built"⟩)) ∧
    (s.mount_data = none →
      (Suite.mount_to (Suite.mount_to s p e1).1 (Suite.mount_to s p e1).2.1 e2).2.2
        = some ⟨ExcKind.alreadyMounted, "Suite " ++ s.name ++ " already mount"⟩) ∧
    (s.is_build = false → ∀ e : Exc,
      (Suite.build s registry unitsOf shuffle case_name test_name).2 = some e →
      ((Suite.build s registry unitsOf shuffle case_name test_name).1).is_build = false) ∧
    (s.is_build = false →
      (Suite.build s registry unitsOf shuffle case_name test_name).2 = none →
      ((Suite.build s registry unitsOf shuffle case_name test_name).1).is_build = true) := by
  refine ⟨?_, ?_, ?_, ?_⟩
  · intro hb hm
    have hm' : s.mount_data.isNone = false := by
      cases h : s.mount_data
      · rw [h] at hm; simp at hm
      · rfl
    simp [Suite.build, hm', hb]
  · intro hm
    simp [Suite.mount_to, hm]
  · intro hb e herr
    have h := build_flag s registry unitsOf shuffle case_name test_name hb _ rfl
    rw [herr] at h
    simpa using h
  · intro hb hok
    have h := build_flag s registry unitsOf shuffle case_name test_name hb _ rfl
    rw [hok] at h
    simpa using h

/-- Witness for C3: a second build on the sample suite fails with
AlreadyBuilt; mounting the fresh suite twice fails with AlreadyMounted; a
failing unit loader on the fresh (mounted) suite leaves it unbuilt. -/
theorem C3_build_mount_one_shot_witness :
    Suite.build sampleSuite [] (fun _ _ => Except.ok []) none none none
      = (sampleSuite, some ⟨ExcKind.alreadyBuilt, "Suite is already built"⟩) ∧
    (Suite.mount_to (Suite.mount_to freshSuite sampleProgram none).1
        (Suite.mount_to freshSuite sampleProgram none).2.1 none).2.2
      = some ⟨ExcKind.alreadyMounted, "Suite " ++ freshSuite.name ++ " already mount"⟩ ∧
    ((Suite.build { freshSuite with mount_data := some sampleConfig } []
        (fun _ _ => Except.error ⟨ExcKind.runtimeError, "constructor blew up"⟩)
        none none none).1).is_build = false :=
  ⟨(C3_build_mount_one_shot sampleSuite sampleProgram [] (fun _ _ => Except.ok [])
      none none none none none).1 rfl rfl,
   (C3_build_mount_one_shot freshSuite sampleProgram [] (fun _ _ => Except.ok [])
      none none none none none).2.1 rfl,
   (C3_build_mount_one_shot { freshSuite with mount_data := some sampleConfig }
      sampleProgram []
      (fun _ _ => Except.error ⟨ExcKind.runtimeError, "constructor blew up"⟩)
      none none none none none).2.2.1 rfl
      ⟨ExcKind.runtimeError, "constructor blew up"⟩ (by decide)⟩

/-- Group selection ignores the run flag. -/
lemma make_group_is_run_irrel (s : Suite) (b : Bool) (py3 : Bool) :
    Suite._make_group { s with is_run := b } py3 = Suite._make_group s py3 := by
  cases s
  rfl

/-- The try body records no add_error event. -/
lemma tryBody_no_addError (env : RunEnv) : countAddError (tryBody env).1 = 0 := by
  rcases env with ⟨py3, o, st, g, td, oe, tb, el⟩
  cases o <;> cases st <;> cases td <;> rfl

/-- C1 counterexample: the group call raises an always-propagate stop
signal, but the teardown exit raises a plain error while handling it, so
the stop signal does not propagate out of run; the teardown error is then
recorded and the failing on-error broadcast escapes instead of run
returning normally — refuting the claim as stated on this input. -/
theorem C1_run_boundary_counterexample :
    ALLOW_RAISED_EXCEPTIONS ExcKind.stopSignal = true ∧
    clashEnv.groupExc = some ⟨ExcKind.stopSignal, "stop the run"⟩ ∧
    (Suite.run sampleSuite ⟨false⟩ clashEnv).2.2
      = some ⟨ExcKind.runtimeError, "error layer failed"⟩ ∧
    (Suite.run sampleSuite ⟨false⟩ clashEnv).2.2 ≠ some ⟨ExcKind.stopSignal, "stop the run"⟩ := by
  decide

/-- C1 (amended): provided the teardown exit and the on-error broadcast do
not themselves raise, an exception escaping the suite body (the on-run
broadcast, the setup, or the group call) whose kind is in the
always-propagate set propagates out of run unchanged with nothing recorded,
and every other such exception is caught at the run boundary, recorded
exactly once via add_error with the suite, the formatted traceback, the
elapsed duration and the error value, triggers the on-error broadcast, and
run returns normally. -/
theorem C1_run_boundary (s : Suite) (r : Result) (env : RunEnv) (e : Exc)
    (hb : s.is_build = true) (hstop : r.should_stop = false)
    (hne : s.case_instances ≠ [])
    (hmg : (Suite._make_group s env.isPython3).isOk = true)
    (htd : env.teardownExc = none) (hoe : env.onErrorExc = none)
    (hbody : env.onRunExc = some e ∨
      (env.onRunExc = none ∧ env.setupExc = some e) ∨
      (env.onRunExc = none ∧ env.setupExc = none ∧ env.groupExc = some e)) :
    (ALLOW_RAISED_EXCEPTIONS e.kind = true →
      (Suite.run s r env).2.2 = some e ∧
      countAddError (Suite.run s r env).2.1 = 0) ∧
    (ALLOW_RAISED_EXCEPTIONS e.kind = false →
      (Suite.run s r env).2.2 = none ∧
      countAddError (Suite.run s r env).2.1 = 1 ∧
      Event.addError s.name env.tb env.elapsed e ∈ (Suite.run s r env).2.1 ∧
      Event.onError e ∈ (Suite.run s r env).2.1) := by
  have hrun : Suite.run s r env
      = ({ s with is_run := true }, (runBody { s with is_run := true } env).1,
         (runBody { s with is_run := true } env).2) := by
    rw [Suite.run]
    rw [if_neg (by simp [hb])]
    rw [if_neg (by simp [hstop, hne])]
  obtain ⟨g, hg⟩ : ∃ g, Suite._make_group s env.isPython3 = Except.ok g := by
    cases hmk : Suite._make_group s env.isPython3 with
    | error e0 => rw [hmk] at hmg; simp [Except.isOk, Except.toBool] at hmg
    | ok g => exact ⟨g, rfl⟩
  have hg2 : Suite._make_group { s with is_run := true } env.isPython3 = Except.ok g := by
    rw [make_group_is_run_irrel]; exact hg
  have hbody2 : (tryBody env).2 = some e := by
    rcases hbody with h | ⟨h1, h2⟩ | ⟨h1, h2, h3⟩ <;> simp [tryBody, htd, *]
  rcases htb : tryBody env with ⟨bodyEvs, bodyExc⟩
  have hexc : bodyExc = some e := by
    rw [htb] at hbody2
    exact hbody2
  subst hexc
  have hcnt : countAddError bodyEvs = 0 := by
    have := tryBody_no_addError env
    rw [htb] at this
    exact this
  have hrb : runBody { s with is_run := true } env
      = (if ALLOW_RAISED_EXCEPTIONS e.kind then
          (Event.proxyEnter :: bodyEvs ++ [Event.proxyExit], some e)
        else
          (Event.proxyEnter :: (bodyEvs
              ++ [Event.addError s.name env.tb env.elapsed e, Event.onError e])
            ++ [Event.proxyExit], none)) := by
    rw [runBody, hg2, htb]
    cases hal : ALLOW_RAISED_EXCEPTIONS e.kind
    · simp only [hal, Bool.false_eq_true, if_false, hoe]
    · simp only [hal, if_true]
  have h0 : List.countP isAddError bodyEvs = 0 := hcnt
  constructor
  · intro hal
    rw [hrun, hrb]
    simp only [hal, if_true]
    refine ⟨?_, ?_⟩
    · trivial
    · simp [countAddError, isAddError, List.countP_cons, List.countP_append, h0]
  · intro hal
    rw [hrun, hrb]
    simp only [hal, Bool.false_eq_true, if_false]
    refine ⟨?_, ?_, ?_, ?_⟩
    · trivial
    · simp [countAddError, isAddError, List.countP_cons, List.countP_append, h0]
    · simp
    · simp

/-- Witness for C1 at a concrete run: a plain error raised by the group
call is recorded once with the traceback, duration and error value, the
on-error broadcast fires, and run returns normally. -/
theorem C1_run_boundary_witness :
    (Suite.run sampleSuite ⟨false⟩ groupFailEnv).2.2 = none ∧
    countAddError (Suite.run sampleSuite ⟨false⟩ groupFailEnv).2.1 = 1 ∧
    Event.addError sampleSuite.name groupFailEnv.tb groupFailEnv.elapsed
        ⟨ExcKind.runtimeError, "case blew up"⟩
      ∈ (Suite.run sampleSuite ⟨false⟩ groupFailEnv).2.1 ∧
    Event.onError ⟨ExcKind.runtimeError, "case blew up"⟩
      ∈ (Suite.run sampleSuite ⟨false⟩ groupFailEnv).2.1 :=
  (C1_run_boundary sampleSuite ⟨false⟩ groupFailEnv ⟨ExcKind.runtimeError, "case blew up"⟩
    rfl rfl (by decide) (by decide) rfl rfl (Or.inr (Or.inr ⟨rfl, rfl, rfl⟩))).2 rfl
